import Mathlib

set_option autoImplicit false

/-!
Verification of the mcp-server-qdrant tool-dispatch and schema-generation
engine.

Shallow embedding of the tool registry, schema deriver, dispatcher and
configuration gate of the repository (files `mcp_server.py`,
`custom_server.py`, `server.py`, `qdrant.py`), with proofs of the
specified invariants.
-/

namespace McpServerQdrant

/-!
Python values.

Arguments, defaults and metadata are Python objects; `Value` models the
JSON-shaped subset the server ever passes around. `pyStr`/`pyRepr` model
`str()`/`repr()` as used in f-strings, `jsonValue` models `json.dumps`.
-/

inductive Value where
  | str (s : String)
  | num (n : Int)
  | boolean (b : Bool)
  | noneV
  | listV (elems : List Value)
  | dict (entries : List (String × Value))

mutual

/-- Python `str()` of a value, as interpolated by an f-string. -/
def pyStr : Value → String
  | .str s => s
  | v => pyRepr v

/-- Python `repr()` of a value (used for elements of containers). -/
def pyRepr : Value → String
  | .str s => "\x27" ++ s ++ "\x27"
  | .num n => toString n
  | .boolean b => if b then "True" else "False"
  | .noneV => "None"
  | .listV l => "[" ++ pyReprElems l ++ "]"
  | .dict d => "\x7b" ++ pyReprEntries d ++ "\x7d"

/-- Comma-separated `repr()`s of list elements. -/
def pyReprElems : List Value → String
  | [] => ""
  | [v] => pyRepr v
  | v :: rest => pyRepr v ++ ", " ++ pyReprElems rest

/-- Comma-separated `repr()`s of dict entries. -/
def pyReprEntries : List (String × Value) → String
  | [] => ""
  | [(k, v)] => "\x27" ++ k ++ "\x27: " ++ pyRepr v
  | (k, v) :: rest => "\x27" ++ k ++ "\x27: " ++ pyRepr v ++ ", " ++ pyReprEntries rest

end

mutual

/-- Model of `json.dumps` on a value (default separators). -/
def jsonValue : Value → String
  | .str s => "\"" ++ s ++ "\""
  | .num n => toString n
  | .boolean b => if b then "true" else "false"
  | .noneV => "null"
  | .listV l => "[" ++ jsonElems l ++ "]"
  | .dict d => "\x7b" ++ jsonEntries d ++ "\x7d"

/-- Comma-separated JSON renderings of list elements. -/
def jsonElems : List Value → String
  | [] => ""
  | [v] => jsonValue v
  | v :: rest => jsonValue v ++ ", " ++ jsonElems rest

/-- Comma-separated JSON renderings of dict entries. -/
def jsonEntries : List (String × Value) → String
  | [] => ""
  | [(k, v)] => "\"" ++ k ++ "\": " ++ jsonValue v
  | (k, v) :: rest => "\"" ++ k ++ "\": " ++ jsonValue v ++ ", " ++ jsonEntries rest

end

/-- Model of `json.dumps` applied to a metadata dict. -/
def jsonDumps (m : List (String × Value)) : String :=
  jsonValue (Value.dict m)

/-!
Configuration (settings read by `mcp_server.py`).

`QdrantSettings.collection_name` is optional, and `setup_tools` branches on
its Python truthiness (`if self.qdrant_settings.collection_name:`), which is
false for both `None` and the empty string.
-/

structure ToolSettings where
  tool_find_description : String
  tool_store_description : String
  tool_match_description : String
  deriving Repr, DecidableEq

structure QdrantSettings where
  location : Option String
  api_key : Option String
  collection_name : Option String
  local_path : Option String
  read_only : Bool
  search_limit : Nat
  deriving Repr, DecidableEq

/-- Python truthiness of the optional collection name: `None` and `""` are
falsy. -/
def collectionNameTruthy (qs : QdrantSettings) : Bool :=
  match qs.collection_name with
  | none => false
  | some s => !(s == "")

/-- Replace the `read_only` field of a settings value. -/
def withReadOnly (qs : QdrantSettings) (b : Bool) : QdrantSettings :=
  ⟨qs.location, qs.api_key, qs.collection_name, qs.local_path, b, qs.search_limit⟩

/-!
The tool handlers defined inside `QdrantMCPServer.setup_tools`
(`mcp_server.py`).

Each closure defined in `setup_tools` is identified by a `HandlerKind`;
`handlerParams` records its declared parameter list exactly as in the
source (the implicit `ctx : Context` first parameter included). The
source function named `match` is called `matchTool` here because `match`
is a Lean keyword.
-/

inductive HandlerKind where
  | store
  | store_with_default_collection
  | find
  | find_with_default_collection
  | list_collections
  | get_collection_info
  | matchTool
  | match_with_default_collection
  deriving Repr, DecidableEq

/-- Parameter names of each handler closure, in source order. -/
def handlerParams : HandlerKind → List String
  | .store => ["ctx", "information", "collection_name", "metadata"]
  | .store_with_default_collection => ["ctx", "information", "metadata"]
  | .find => ["ctx", "query", "collection_name"]
  | .find_with_default_collection => ["ctx", "query"]
  | .list_collections => ["ctx"]
  | .get_collection_info => ["ctx", "collection_name"]
  | .matchTool => ["ctx", "metadata", "collection_name"]
  | .match_with_default_collection => ["ctx", "metadata"]

/-- A handler mutates the database exactly when it is a `store` variant
(the source guards their registration with
`if not self.qdrant_settings.read_only`). -/
def mutating : HandlerKind → Bool
  | .store => true
  | .store_with_default_collection => true
  | _ => false

/-- One `self.add_tool(...)` registration performed by `setup_tools`. -/
structure RegisteredTool where
  handler : HandlerKind
  name : String
  description : String
  deriving Repr, DecidableEq

/-- The sequence of `add_tool` registrations performed by
`QdrantMCPServer.setup_tools`, in source order: the find family first,
then the store family unless `read_only`, then the two unconditional
collection-management tools, then the match family. -/
def setupTools (ts : ToolSettings) (qs : QdrantSettings) : List RegisteredTool :=
  (if collectionNameTruthy qs then
    [⟨.find_with_default_collection, "qdrant-find", ts.tool_find_description⟩]
  else
    [⟨.find, "qdrant-find", ts.tool_find_description⟩])
  ++ (if !qs.read_only then
    (if collectionNameTruthy qs then
      [⟨.store_with_default_collection, "qdrant-store", ts.tool_store_description⟩]
    else
      [⟨.store, "qdrant-store", ts.tool_store_description⟩])
  else [])
  ++ [⟨.list_collections, "qdrant-list-collections",
        "List all available collections in the Qdrant server."⟩,
      ⟨.get_collection_info, "qdrant-collection-info",
        "Get detailed information about a specific collection, including its configuration and schema."⟩]
  ++ (if collectionNameTruthy qs then
    [⟨.match_with_default_collection, "qdrant-match", ts.tool_match_description⟩]
  else
    [⟨.matchTool, "qdrant-match", ts.tool_match_description⟩])

/-- How many registrations in `reg` use handler `k`. -/
def countHandler (reg : List RegisteredTool) (k : HandlerKind) : Nat :=
  (reg.filter (fun t => t.handler == k)).length

/-- The registrations of mutating handlers in `reg`. -/
def mutatingTools (reg : List RegisteredTool) : List RegisteredTool :=
  reg.filter (fun t => mutating t.handler)

/-- The registrations of non-mutating handlers in `reg`. -/
def nonMutatingTools (reg : List RegisteredTool) : List RegisteredTool :=
  reg.filter (fun t => !(mutating t.handler))

/-!
Schema deriver (`custom_server.py`, `QdrantMCPServer.__parse_function_parameters`).

A Python parameter is modelled by its name, its entry in
`get_type_hints(func)` (absent means the lookup default `Any`), and its
`inspect` default (absent means `Parameter.empty`).
-/

inductive PyType where
  | pyInt
  | pyFloat
  | pyBool
  | pyStr
  | pyList
  | pyListGeneric (arg : PyType)
  | pyNone
  | anyType
  | other (typeName : String)
  deriving Repr, DecidableEq

structure PyParam where
  name : String
  hint : Option PyType
  default : Option Value

structure PyFunction where
  name : String
  params : List PyParam
  doc : Option String

/-- The JSON-schema primitive the deriver assigns to a declared type:
`int`/`float` give `number`, `bool` gives `boolean`, `list` (bare or
subscripted, via `__origin__`) gives `array`, and everything else keeps
the initial default `string`. -/
def schemaTypeOf : PyType → String
  | .pyInt => "number"
  | .pyFloat => "number"
  | .pyBool => "boolean"
  | .pyList => "array"
  | .pyListGeneric _ => "array"
  | _ => "string"

/-- The description extracted from the docstring for one parameter: the
lines containing `:param NAME:` are stripped and collected, and the text
after the first marker of the first such line is stripped and used. -/
def paramDoc (doc : Option String) (paramName : String) : Option String :=
  match doc with
  | none => none
  | some d =>
    let pat := ":param " ++ paramName ++ ":"
    let docLines := (d.splitOn "\n").filter (fun line => 1 < (line.splitOn pat).length)
    match docLines with
    | [] => none
    | line :: _ => some ((((line.trim).splitOn pat).getD 1 "").trim)

structure PropSchema where
  type : String
  default : Option Value
  description : Option String

/-- The per-parameter schema built by the loop body of
`__parse_function_parameters`. -/
def paramSchema (doc : Option String) (p : PyParam) : PropSchema :=
  ⟨schemaTypeOf (p.hint.getD .anyType), p.default, paramDoc doc p.name⟩

/-- The derived `properties` mapping: one entry per parameter in order,
skipping parameters named `self`. -/
def deriveProps (doc : Option String) : List PyParam → List (String × PropSchema)
  | [] => []
  | p :: rest =>
    if p.name = "self" then deriveProps doc rest
    else (p.name, paramSchema doc p) :: deriveProps doc rest

/-- The derived `required` list: the names of the parameters without a
default, in order, skipping parameters named `self`. -/
def deriveRequired : List PyParam → List String
  | [] => []
  | p :: rest =>
    if p.name = "self" then deriveRequired rest
    else if p.default.isNone then p.name :: deriveRequired rest
    else deriveRequired rest

/-- An input schema, always of JSON type `object`. -/
structure InputSchema where
  properties : List (String × PropSchema)
  required : List String

/-- Model of `QdrantMCPServer.__parse_function_parameters`. -/
def parseFunctionParameters (f : PyFunction) : InputSchema :=
  ⟨deriveProps f.doc f.params, deriveRequired f.params⟩

/-!
Tool registry and dispatcher (`custom_server.py`).

`_tool_handlers` is a Python dict (insertion-ordered, assignment
overwrites in place), `_tools` is a plain list that registration appends
to. `handle_tool_call` resolves the name in `_tool_handlers` and calls the
handler as `fn(**arguments)`; the binding semantics of that call
(`None` is not a mapping; unexpected keywords are reported before missing
ones; missing required parameters raise a `TypeError` naming them) are
modelled by `bindKwargs`.
-/

inductive Content where
  | text (s : String)
  | image (data : String)
  | embeddedResource (data : String)
  deriving Repr, DecidableEq

/-- A registered handler: its Python signature plus its body, which runs
only after keyword binding succeeded. -/
structure Handler where
  fn : PyFunction
  body : List (String × Value) → List Content

structure Tool where
  name : String
  description : String
  inputSchema : InputSchema

structure ServerState where
  tool_handlers : List (String × Handler)
  tools : List Tool

def emptyServerState : ServerState := ⟨[], []⟩

/-- Python dict assignment `d[k] = v`: overwrite in place when the key
exists, append otherwise. -/
def dictSet {α : Type} (d : List (String × α)) (k : String) (v : α) : List (String × α) :=
  match d with
  | [] => [(k, v)]
  | (k₁, v₁) :: rest => if k₁ = k then (k, v) :: rest else (k₁, v₁) :: dictSet rest k v

/-- Model of `QdrantMCPServer.register_tool` applied to a function: the
name defaults to the function name, the schema defaults to the derived
one, the handler mapping is assigned and the tool appended. No duplicate
check is performed. -/
def registerTool (st : ServerState) (description : String) (name : Option String)
    (input_schema : Option InputSchema) (fn : Handler) : ServerState :=
  let toolName := name.getD fn.fn.name
  let schema := input_schema.getD (parseFunctionParameters fn.fn)
  ⟨dictSet st.tool_handlers toolName fn, st.tools ++ [⟨toolName, description, schema⟩]⟩

/-- Errors raised on the dispatch path: the explicit `ValueError` for an
unknown tool, and the `TypeError`s Python raises while evaluating
`fn(**arguments)`. -/
inductive PyCallError where
  | unknownTool (name : String)
  | kwargsNotAMapping
  | unexpectedKeyword (param : String)
  | missingArguments (params : List String)
  deriving Repr, DecidableEq

/-- Python keyword binding for `fn(**args)` over simple
positional-or-keyword parameters: an unexpected keyword raises first,
then all missing no-default parameters are reported by name, otherwise
each parameter is bound to its argument or its default. -/
def bindKwargs (params : List PyParam) (args : List (String × Value)) :
    Except PyCallError (List (String × Value)) :=
  match args.find? (fun a => !(params.any (fun p => p.name == a.1))) with
  | some a => .error (.unexpectedKeyword a.1)
  | none =>
    let missing := params.filter (fun p => p.default.isNone && (args.lookup p.name).isNone)
    if missing.isEmpty then
      .ok (params.map (fun p => (p.name, (args.lookup p.name).getD (p.default.getD .noneV))))
    else
      .error (.missingArguments (missing.map (fun p => p.name)))

/-- Model of `QdrantMCPServer.handle_tool_call`: resolve the name in
`_tool_handlers` (raising `Unknown tool` when absent), then evaluate
`fn(**arguments)`: `arguments = None` raises a `TypeError` because `None`
is not a mapping, otherwise the keywords are bound and the handler body
runs. -/
def handleToolCall (st : ServerState) (name : String)
    (arguments : Option (List (String × Value))) : Except PyCallError (List Content) :=
  match st.tool_handlers.lookup name with
  | none => .error (.unknownTool name)
  | some h =>
    match arguments with
    | none => .error .kwargsNotAMapping
    | some args =>
      match bindKwargs h.fn.params args with
      | .error e => .error e
      | .ok bound => .ok (h.body bound)

/-!
The fixed dispatcher of `server.py` (`serve` / `handle_tool_call`).

The two tools and their declared required parameters come from
`handle_list_tools`; the dispatcher validates required-field presence
(`if not arguments or "information" not in arguments`) before touching
the connector, and raises a `ValueError` naming the field. Collaborator
activity is returned as an explicit trace so that theorems can state that
no handler work happened.
-/

structure ServeTool where
  name : String
  required : List String
  deriving Repr, DecidableEq

/-- The two tools listed by `handle_list_tools` with their declared
`required` sets. -/
def serveListTools : List ServeTool :=
  [⟨"qdrant-store-memory", ["information"]⟩, ⟨"qdrant-find-memories", ["query"]⟩]

/-- Calls made to the `QdrantConnector` collaborator. -/
inductive CollabCall where
  | storeMemory (information : Value)
  | findMemories (query : Value)

/-- Python truthiness of the `arguments` mapping-or-null: `None` and the
empty dict are falsy. -/
def argumentsFalsy : Option (List (String × Value)) → Bool
  | none => true
  | some [] => true
  | some (_ :: _) => false

/-- Model of `handle_tool_call` in `server.py`, parameterized by the
connector's `find_memories` behaviour; returns the protocol outcome
(raised `ValueError` message or content list) together with the trace of
connector calls performed. -/
def serveHandleToolCall (findMemories : Value → List String) (name : String)
    (arguments : Option (List (String × Value))) :
    Except String (List Content) × List CollabCall :=
  if name ≠ "qdrant-store-memory" ∧ name ≠ "qdrant-find-memories" then
    (.error ("Unknown tool: " ++ name), [])
  else if name = "qdrant-store-memory" then
    if argumentsFalsy arguments || ((arguments.getD []).lookup "information").isNone then
      (.error "Missing required argument \x27information\x27", [])
    else
      let information := ((arguments.getD []).lookup "information").getD .noneV
      (.ok [.text ("Remembered: " ++ pyStr information)], [.storeMemory information])
  else
    if argumentsFalsy arguments || ((arguments.getD []).lookup "query").isNone then
      (.error "Missing required argument \x27query\x27", [])
    else
      let query := ((arguments.getD []).lookup "query").getD .noneV
      let memories := findMemories query
      (.ok (.text ("Memories for the query \x27" ++ pyStr query ++ "\x27") ::
        memories.map (fun m => .text ("<memory>" ++ m ++ "</memory>"))), [.findMemories query])

/-!
Entries, search and result formatting (`qdrant.py` and the
`find`/`match` closures of `mcp_server.py`).
-/

structure Entry where
  content : String
  metadata : Option (List (String × Value))

/-- Model of `QdrantConnector.search`: when the collection does not exist
the search returns the empty list without consulting the client;
otherwise it returns the entries produced from the client's search
response (the external collaborator, passed in as `clientResults`). -/
def connectorSearch (collectionExists : Bool) (clientResults : List Entry) : List Entry :=
  if collectionExists then clientResults else []

/-- The `entry_metadata` string of `format_entry`:
`json.dumps(entry.metadata) if entry.metadata else ""`, where `None` and
the empty dict are falsy. -/
def metadataString (e : Entry) : String :=
  match e.metadata with
  | none => ""
  | some m => if m.isEmpty then "" else jsonDumps m

/-- Model of `QdrantMCPServer.format_entry`: truncate the content to its
first 200 characters plus `"..."` when requested and longer than 200,
then wrap content and metadata in the entry markup. -/
def format_entry (e : Entry) (truncate : Bool) : String :=
  let content := e.content
  let content := if truncate && decide (200 < content.length) then content.take 200 ++ "..." else content
  "<entry><content>" ++ content ++ "</content><metadata>" ++ metadataString e ++ "</metadata></entry>"

/-- The result list built by the `find` closure from the entries returned
by `QdrantConnector.search`: the no-information message when empty,
otherwise a header followed by each entry formatted with truncation. -/
def findToolResult (entries : List Entry) (query : String) : List String :=
  if entries.isEmpty then
    ["No information found for the query \x27" ++ query ++ "\x27"]
  else
    ("Results for the query \x27" ++ query ++ "\x27") ::
      entries.map (fun e => format_entry e true)

/-- The result list built by the `match` closure from the entries
returned by `QdrantConnector.search_by_metadata`: the no-information
message when empty, otherwise a header followed by each entry formatted
without truncation. -/
def matchToolResult (entries : List Entry) (metadata : List (String × Value)) : List String :=
  if entries.isEmpty then
    ["No information found for the metadata \x27" ++ pyStr (.dict metadata) ++ "\x27"]
  else
    ("Results for the metadata match \x27" ++ pyStr (.dict metadata) ++ "\x27") ::
      entries.map (fun e => format_entry e false)

/-!
Concrete fixtures used to instantiate the theorems.
-/

def ts0 : ToolSettings :=
  ⟨"Find memories in Qdrant.", "Store some information in Qdrant.",
   "Find memories matching metadata."⟩

/-- A configuration with a bound collection name and mutations allowed. -/
def qsBound : QdrantSettings :=
  ⟨some "http://localhost:6333", none, some "memories", none, false, 10⟩

/-- A configuration with no collection name and mutations allowed. -/
def qsParam : QdrantSettings :=
  ⟨some "http://localhost:6333", none, none, none, false, 10⟩

/-- A read-only configuration with a bound collection name. -/
def qsBoundReadOnly : QdrantSettings :=
  ⟨some "http://localhost:6333", none, some "memories", none, true, 10⟩

/-- The docstring of `test_function` from `tests/test_custom_server.py`. -/
def testFunctionDoc : String :=
  "\n        A test function with different parameter types.\n\n        :param text_param: A string parameter\n        :param number_param: An integer parameter\n        :param flag_param: A boolean parameter with default\n        "

/-- The signature of `test_function` from `tests/test_custom_server.py`. -/
def testFunction : PyFunction :=
  ⟨"test_function",
   [⟨"text_param", some .pyStr, none⟩,
    ⟨"number_param", some .pyInt, none⟩,
    ⟨"flag_param", some .pyBool, some (.boolean false)⟩],
   some testFunctionDoc⟩

/-- A store-like handler signature: one required and one defaulted
parameter. -/
def storeHandlerFn : PyFunction :=
  ⟨"store",
   [⟨"information", some .pyStr, none⟩,
    ⟨"metadata", some (.other "Metadata"), some .noneV⟩],
   none⟩

def storeHandler : Handler := ⟨storeHandlerFn, fun _ => [.text "stored"]⟩

def altStoreHandler : Handler := ⟨storeHandlerFn, fun _ => [.text "stored again"]⟩

/-- The registry after registering `qdrant-store` once. -/
def registryOnce : ServerState :=
  registerTool emptyServerState "Store some information" (some "qdrant-store") none storeHandler

/-- The registry after registering a second tool under the same name. -/
def registryTwice : ServerState :=
  registerTool registryOnce "Store some information" (some "qdrant-store") none altStoreHandler

/-- An entry whose content is 201 characters long. -/
def longEntry : Entry := ⟨String.mk (List.replicate 201 'x'), none⟩

/-- An entry with short content and some metadata. -/
def shortEntry : Entry := ⟨"short memory", some [("k", .str "v")]⟩

/-!
Helper lemmas.
-/

theorem dictSet_lookup_self {α : Type} (d : List (String × α)) (k : String) (v : α) :
    (dictSet d k v).lookup k = some v := by
  induction d with
  | nil => simp [dictSet]
  | cons hd tl ih =>
    obtain ⟨k₁, v₁⟩ := hd
    by_cases h : k₁ = k
    · simp [dictSet, h]
    · have hne : (k == k₁) = false := by simp [beq_eq_false_iff_ne, Ne.symm h]
      simp [dictSet, h, List.lookup, ih, hne]

theorem registerTool_tools_length (st : ServerState) (d : String) (name : Option String)
    (schema : Option InputSchema) (h : Handler) :
    (registerTool st d name schema h).tools.length = st.tools.length + 1 := by
  simp [registerTool]

theorem deriveRequired_eq (l : List PyParam) :
    deriveRequired l
      = ((l.filter (fun p => !(p.name == "self"))).filter
          (fun p => p.default.isNone)).map PyParam.name := by
  induction l with
  | nil => rfl
  | cons p rest ih =>
    by_cases hs : p.name = "self"
    · simp [deriveRequired, hs, ih]
    · cases hd : p.default.isNone <;> simp [deriveRequired, hs, hd, ih]

theorem deriveProps_names (doc : Option String) (l : List PyParam) :
    (deriveProps doc l).map Prod.fst
      = (l.filter (fun p => !(p.name == "self"))).map PyParam.name := by
  induction l with
  | nil => rfl
  | cons p rest ih => by_cases hs : p.name = "self" <;> simp [deriveProps, hs, ih]

theorem length_filter_split {α : Type} (l : List α) (q : α → Bool) :
    (l.filter q).length + (l.filter (fun x => !(q x))).length = l.length := by
  induction l with
  | nil => rfl
  | cons x rest ih => cases hq : q x <;> simp [List.filter_cons, hq, ← ih] <;> omega

theorem self_not_mem_filtered_names (l : List PyParam) :
    "self" ∉ (l.filter (fun p => !(p.name == "self"))).map PyParam.name := by
  simp only [List.mem_map, List.mem_filter, Bool.not_eq_true', beq_eq_false_iff_ne]
  rintro ⟨p, ⟨-, hne⟩, hname⟩
  exact hne hname

/-!
Claim theorems.
-/

/-- C6: for every registry state, every tool name not present in the
registry and every argument mapping, `handle_tool_call` fails with the
unknown-tool error (the raised `ValueError`, surfaced as a rejected
protocol call, not content), and no handler body is invoked (the result
is the same for every registry content). -/
theorem handle_tool_call_unknown_tool (st : ServerState) (name : String)
    (args : Option (List (String × Value)))
    (h : st.tool_handlers.lookup name = none) :
    handleToolCall st name args = .error (.unknownTool name) := by
  simp [handleToolCall, h]

/-- C6 witness: calling `nonexistent-tool` on the empty registry is
rejected with the unknown-tool error. -/
theorem handle_tool_call_unknown_tool_witness :
    handleToolCall emptyServerState "nonexistent-tool" (some [])
      = .error (.unknownTool "nonexistent-tool") :=
  handle_tool_call_unknown_tool emptyServerState "nonexistent-tool" (some []) rfl

/-- C10: for every registered tool whose handler takes at least one
parameter, dispatching with `arguments = None` fails with the `TypeError`
raised by `fn(**None)` instead of invoking the handler, and `None` is not
normalized to the empty argument mapping: the outcome differs from the
outcome of dispatching with `{}`. -/
theorem handle_tool_call_none_arguments (st : ServerState) (name : String) (h : Handler)
    (hreg : st.tool_handlers.lookup name = some h) (hparams : h.fn.params ≠ []) :
    handleToolCall st name none = .error .kwargsNotAMapping
    ∧ handleToolCall st name none ≠ handleToolCall st name (some []) := by
  refine ⟨by simp [handleToolCall, hreg], ?_⟩
  simp only [handleToolCall, hreg]
  cases hb : bindKwargs h.fn.params [] with
  | error e =>
    have he : ∃ ms, e = PyCallError.missingArguments ms := by
      simp only [bindKwargs, List.find?] at hb
      split at hb
      · cases hb
      · cases hb
        exact ⟨_, rfl⟩
    obtain ⟨ms, rfl⟩ := he
    simp
  | ok bound => simp

/-- C10 witness: on a registry holding the store tool (one required and
one defaulted parameter), dispatching with `arguments = None` is rejected
with the `TypeError`. -/
theorem handle_tool_call_none_arguments_witness :
    handleToolCall registryOnce "qdrant-store" none = .error .kwargsNotAMapping :=
  (handle_tool_call_none_arguments registryOnce "qdrant-store" storeHandler rfl
    (by simp [storeHandler, storeHandlerFn])).1

/-- C4 counterexample: `register_tool` performs no duplicate check, so
registering a second tool under the name `qdrant-store` does not fail
with a Conflict error and does not leave the registry unchanged: the
descriptor list grows from one to two entries of the same name and the
handler mapping now resolves to the second handler. -/
theorem register_tool_duplicate_counterexample :
    registryOnce.tools.length = 1 ∧ registryTwice.tools.length = 2 ∧
    registryTwice.tools.map Tool.name = ["qdrant-store", "qdrant-store"] ∧
    registryTwice.tool_handlers.lookup "qdrant-store" = some altStoreHandler :=
  ⟨rfl, rfl, rfl, rfl⟩

/-- C4 amended: registering a second tool under an already-registered
name raises no error; it silently overwrites the name's entry in the
handler mapping with the new handler and appends one more descriptor to
the tool list, so the tool count grows by one. -/
theorem register_tool_duplicate_overwrites (st : ServerState) (d : String)
    (name : String) (schema : Option InputSchema) (h : Handler)
    (hdup : (st.tool_handlers.lookup name).isSome = true) :
    (registerTool st d (some name) schema h).tools.length = st.tools.length + 1
    ∧ (registerTool st d (some name) schema h).tool_handlers.lookup name = some h := by
  refine ⟨registerTool_tools_length st d (some name) schema h, ?_⟩
  simp [registerTool, dictSet_lookup_self]

/-- C4 amended witness: re-registering `qdrant-store` on a registry that
already holds it appends a second descriptor and overwrites the handler. -/
theorem register_tool_duplicate_overwrites_witness :
    registryTwice.tools.length = registryOnce.tools.length + 1
    ∧ registryTwice.tool_handlers.lookup "qdrant-store" = some altStoreHandler :=
  register_tool_duplicate_overwrites registryOnce "Store some information"
    "qdrant-store" none altStoreHandler rfl

/-- C7: for every query, a non-existent collection makes the search
return the empty list (treated as an empty result, not an error), and the
find tool turns an empty search result into exactly one content item
stating that no information was found; the find tool never returns an
empty sequence for any search result. -/
theorem find_no_results_message (query : String) (clientResults : List Entry) :
    connectorSearch false clientResults = []
    ∧ findToolResult (connectorSearch false clientResults) query
        = ["No information found for the query \x27" ++ query ++ "\x27"]
    ∧ findToolResult (connectorSearch true []) query
        = ["No information found for the query \x27" ++ query ++ "\x27"]
    ∧ ∀ entries : List Entry, 1 ≤ (findToolResult entries query).length := by
  refine ⟨rfl, rfl, rfl, ?_⟩
  intro entries
  cases entries <;> simp [findToolResult]

/-- C9: the find tool formats each returned entry with truncation —
content longer than 200 characters is cut to its first 200 characters
followed by `"..."`, shorter content is kept unchanged — while the match
tool formats the same entries without truncation, so a match result
always carries the full stored content. -/
theorem find_truncates_match_preserves (e : Entry) (entries : List Entry)
    (query : String) (metadata : List (String × Value))
    (hne : entries.isEmpty = false) :
    findToolResult entries query
      = ("Results for the query \x27" ++ query ++ "\x27")
          :: entries.map (fun en => format_entry en true)
    ∧ matchToolResult entries metadata
      = ("Results for the metadata match \x27" ++ pyStr (.dict metadata) ++ "\x27")
          :: entries.map (fun en => format_entry en false)
    ∧ (200 < e.content.length →
        format_entry e true
          = "<entry><content>" ++ (e.content.take 200 ++ "...") ++ "</content><metadata>"
              ++ metadataString e ++ "</metadata></entry>")
    ∧ (e.content.length ≤ 200 →
        format_entry e true
          = "<entry><content>" ++ e.content ++ "</content><metadata>"
              ++ metadataString e ++ "</metadata></entry>")
    ∧ format_entry e false
        = "<entry><content>" ++ e.content ++ "</content><metadata>"
            ++ metadataString e ++ "</metadata></entry>" := by
  refine ⟨by simp [findToolResult, hne], by simp [matchToolResult, hne], ?_, ?_, by simp [format_entry]⟩
  · intro hl
    simp [format_entry, hl]
  · intro hl
    simp [format_entry, Nat.not_lt.mpr hl]

set_option maxRecDepth 8192 in
/-- C9 witness: a 201-character entry is truncated by the find-side
formatting and kept whole by the match-side formatting; a short entry is
kept whole in both. -/
theorem find_truncates_match_preserves_witness :
    format_entry longEntry true
      = "<entry><content>" ++ (longEntry.content.take 200 ++ "...") ++ "</content><metadata>"
          ++ metadataString longEntry ++ "</metadata></entry>"
    ∧ format_entry shortEntry true
      = "<entry><content>" ++ shortEntry.content ++ "</content><metadata>"
          ++ metadataString shortEntry ++ "</metadata></entry>"
    ∧ format_entry longEntry false
      = "<entry><content>" ++ longEntry.content ++ "</content><metadata>"
          ++ metadataString longEntry ++ "</metadata></entry>" :=
  ⟨(find_truncates_match_preserves longEntry [longEntry] "query" [] rfl).2.2.1 (by decide),
   (find_truncates_match_preserves shortEntry [shortEntry] "query" [] rfl).2.2.2.1 (by decide),
   (find_truncates_match_preserves longEntry [longEntry] "query" [] rfl).2.2.2.2⟩

/-- C5: for every tool listed by the `server.py` facade and every
argument mapping (or `None`) that lacks one of the tool's required
fields, `handle_tool_call` validates required-field presence before
touching the connector and raises the `ValueError` naming the missing
field — a rejected protocol call (`.error`, not content), with an empty
collaborator trace, for every connector behaviour. -/
theorem serve_missing_required_argument (findMemories : Value → List String)
    (t : ServeTool) (ht : t ∈ serveListTools)
    (args : Option (List (String × Value))) (fld : String)
    (hf : fld ∈ t.required)
    (hmissing : ((args.getD []).lookup fld).isNone = true) :
    serveHandleToolCall findMemories t.name args
      = (.error ("Missing required argument \x27" ++ fld ++ "\x27"), []) := by
  simp only [serveListTools, List.mem_cons, List.mem_singleton, List.not_mem_nil, or_false] at ht
  rcases ht with rfl | rfl
  · simp only [ServeTool.required, List.mem_singleton] at hf
    subst hf
    simp [serveHandleToolCall, hmissing]
  · simp only [ServeTool.required, List.mem_singleton] at hf
    subst hf
    simp [serveHandleToolCall, hmissing]

/-- C5 witness: calling `qdrant-store-memory` with the empty argument
mapping is rejected naming `information`, with no connector call. -/
theorem serve_missing_required_argument_witness :
    serveHandleToolCall (fun _ => []) "qdrant-store-memory" (some [])
      = (.error "Missing required argument \x27information\x27", []) :=
  serve_missing_required_argument (fun _ => [])
    ⟨"qdrant-store-memory", ["information"]⟩ (by simp [serveListTools])
    (some []) "information" (by simp) rfl

/-- C8: schema derivation maps declared `int`/`float` to `number`, `bool`
to `boolean`, bare or subscripted `list` to `array`, and every other or
missing declared type to `string`; the mapping is total (never throws)
and always produces one of those four primitives. -/
theorem schema_type_mapping :
    schemaTypeOf .pyInt = "number" ∧ schemaTypeOf .pyFloat = "number"
    ∧ schemaTypeOf .pyBool = "boolean"
    ∧ schemaTypeOf .pyList = "array"
    ∧ (∀ t : PyType, schemaTypeOf (.pyListGeneric t) = "array")
    ∧ schemaTypeOf .pyStr = "string" ∧ schemaTypeOf .pyNone = "string"
    ∧ schemaTypeOf .anyType = "string"
    ∧ (∀ s : String, schemaTypeOf (.other s) = "string")
    ∧ (∀ t : PyType, schemaTypeOf t = "number" ∨ schemaTypeOf t = "boolean"
        ∨ schemaTypeOf t = "array" ∨ schemaTypeOf t = "string")
    ∧ (∀ (doc : Option String) (p : PyParam), p.hint = none →
        (paramSchema doc p).type = "string") := by
  refine ⟨rfl, rfl, rfl, rfl, fun t => rfl, rfl, rfl, rfl, fun s => rfl, fun t => ?_, ?_⟩
  · cases t <;> simp [schemaTypeOf]
  · intro doc p hp
    simp [paramSchema, hp, schemaTypeOf]

/-- C8 witness: a parameter with no type hint derives schema type
`string`. -/
theorem schema_type_mapping_witness :
    (paramSchema none (PyParam.mk "metadata" none (some .noneV))).type = "string" :=
  schema_type_mapping.2.2.2.2.2.2.2.2.2.2 none ⟨"metadata", none, some .noneV⟩ rfl

/-- C3: for every handler signature with distinct parameter names, the
derived input schema's `required` list is exactly the names of the
parameters without a default (excluding the implicit receiver parameter
`self`, the only dispatcher-injected parameter on this code path, which
is skipped), and `properties` has exactly one entry per remaining
parameter — N entries for the parameters without a default plus M for the
defaulted ones — with distinct keys; the skipped parameter appears
nowhere in the schema. -/
theorem parse_function_parameters_schema (f : PyFunction)
    (hnodup : (f.params.map PyParam.name).Nodup) :
    (parseFunctionParameters f).required
      = ((f.params.filter (fun p => !(p.name == "self"))).filter
          (fun p => p.default.isNone)).map PyParam.name
    ∧ (parseFunctionParameters f).properties.length
      = ((f.params.filter (fun p => !(p.name == "self"))).filter
          (fun p => p.default.isNone)).length
        + ((f.params.filter (fun p => !(p.name == "self"))).filter
          (fun p => !(p.default.isNone))).length
    ∧ (parseFunctionParameters f).properties.map Prod.fst
      = (f.params.filter (fun p => !(p.name == "self"))).map PyParam.name
    ∧ ((parseFunctionParameters f).properties.map Prod.fst).Nodup
    ∧ "self" ∉ (parseFunctionParameters f).properties.map Prod.fst
    ∧ "self" ∉ (parseFunctionParameters f).required := by
  have h1 : (parseFunctionParameters f).required
      = ((f.params.filter (fun p => !(p.name == "self"))).filter
          (fun p => p.default.isNone)).map PyParam.name := deriveRequired_eq f.params
  have h4 : (parseFunctionParameters f).properties.map Prod.fst
      = (f.params.filter (fun p => !(p.name == "self"))).map PyParam.name :=
    deriveProps_names f.doc f.params
  have hkept : (parseFunctionParameters f).properties.length
      = (f.params.filter (fun p => !(p.name == "self"))).length := by
    have := congrArg List.length h4
    simpa using this
  refine ⟨h1, ?_, h4, ?_, ?_, ?_⟩
  · rw [hkept,
      ← length_filter_split (f.params.filter (fun p => !(p.name == "self")))
        (fun p => p.default.isNone)]
  · rw [h4]
    exact hnodup.sublist (List.Sublist.map _ (List.filter_sublist _))
  · rw [h4]
    exact self_not_mem_filtered_names f.params
  · rw [h1]
    intro hmem
    rcases List.mem_map.mp hmem with ⟨p, hp, hname⟩
    have hp₁ := (List.mem_filter.mp hp).1
    exact self_not_mem_filtered_names f.params (List.mem_map.mpr ⟨p, hp₁, hname⟩)

/-- C3 witness: the deriver applied to `test_function` from the test
suite yields two required names and three properties in order. -/
theorem parse_function_parameters_schema_witness :
    (parseFunctionParameters testFunction).required = ["text_param", "number_param"]
    ∧ (parseFunctionParameters testFunction).properties.length = 2 + 1
    ∧ (parseFunctionParameters testFunction).properties.map Prod.fst
        = ["text_param", "number_param", "flag_param"] := by
  have h := parse_function_parameters_schema testFunction (by decide)
  exact ⟨h.1.trans (by decide), h.2.1.trans (by decide), h.2.2.1.trans (by decide)⟩

/-- C1: for every configuration and each tool family with both a
collection-bound and a parameterized variant: when the collection name is
set (truthy) exactly the bound variant is registered and the
parameterized one is not, and when unset exactly the parameterized
variant is registered — one variant each for find and match, and for
store whenever `read_only` is false; the bound variants take no
`collection_name` parameter while the parameterized ones do. -/
theorem setup_tools_variant_exclusive (ts : ToolSettings) (qs : QdrantSettings) :
    ((collectionNameTruthy qs = true →
        countHandler (setupTools ts qs) .find_with_default_collection = 1
        ∧ countHandler (setupTools ts qs) .find = 0
        ∧ countHandler (setupTools ts qs) .match_with_default_collection = 1
        ∧ countHandler (setupTools ts qs) .matchTool = 0
        ∧ (qs.read_only = false →
            countHandler (setupTools ts qs) .store_with_default_collection = 1
            ∧ countHandler (setupTools ts qs) .store = 0))
     ∧ (collectionNameTruthy qs = false →
        countHandler (setupTools ts qs) .find = 1
        ∧ countHandler (setupTools ts qs) .find_with_default_collection = 0
        ∧ countHandler (setupTools ts qs) .matchTool = 1
        ∧ countHandler (setupTools ts qs) .match_with_default_collection = 0
        ∧ (qs.read_only = false →
            countHandler (setupTools ts qs) .store = 1
            ∧ countHandler (setupTools ts qs) .store_with_default_collection = 0)))
    ∧ ("collection_name" ∈ handlerParams .find
       ∧ "collection_name" ∈ handlerParams .store
       ∧ "collection_name" ∈ handlerParams .matchTool
       ∧ "collection_name" ∉ handlerParams .find_with_default_collection
       ∧ "collection_name" ∉ handlerParams .store_with_default_collection
       ∧ "collection_name" ∉ handlerParams .match_with_default_collection) := by
  refine ⟨⟨?_, ?_⟩, by decide⟩ <;>
    intro hb <;> cases hr : qs.read_only <;>
      simp [setupTools, countHandler, hb, hr]

/-- C1 witness: with a bound collection name and mutations allowed, the
bound find, store and match variants are registered exactly once and the
parameterized variants not at all. -/
theorem setup_tools_variant_exclusive_witness :
    countHandler (setupTools ts0 qsBound) .find_with_default_collection = 1
    ∧ countHandler (setupTools ts0 qsBound) .find = 0
    ∧ countHandler (setupTools ts0 qsBound) .match_with_default_collection = 1
    ∧ countHandler (setupTools ts0 qsBound) .matchTool = 0
    ∧ countHandler (setupTools ts0 qsBound) .store_with_default_collection = 1
    ∧ countHandler (setupTools ts0 qsBound) .store = 0 := by
  have h := (setup_tools_variant_exclusive ts0 qsBound).1.1 (by decide)
  exact ⟨h.1, h.2.1, h.2.2.1, h.2.2.2.1, (h.2.2.2.2 rfl).1, (h.2.2.2.2 rfl).2⟩

/-- C2: for every read-only configuration, the registration performed at
startup contains no mutating tool regardless of the collection name, and
it equals the non-mutating part of what a non-read-only configuration
would register — every non-mutating tool is registered as usual. -/
theorem setup_tools_read_only (ts : ToolSettings) (qs : QdrantSettings)
    (h : qs.read_only = true) :
    mutatingTools (setupTools ts qs) = []
    ∧ setupTools ts qs = nonMutatingTools (setupTools ts (withReadOnly qs false)) := by
  cases hb : collectionNameTruthy qs <;>
    · have hb₂ : collectionNameTruthy (withReadOnly qs false) = collectionNameTruthy qs := rfl
      have hro : (withReadOnly qs false).read_only = false := rfl
      simp [setupTools, mutatingTools, nonMutatingTools, mutating, hb₂, hro, hb, h]

/-- C2 witness: a read-only configuration with a bound collection name
registers no mutating tool and otherwise registers the same tools as its
writable counterpart. -/
theorem setup_tools_read_only_witness :
    mutatingTools (setupTools ts0 qsBoundReadOnly) = []
    ∧ setupTools ts0 qsBoundReadOnly
      = nonMutatingTools (setupTools ts0 (withReadOnly qsBoundReadOnly false)) :=
  setup_tools_read_only ts0 qsBoundReadOnly rfl

end McpServerQdrant
